import Mathlib

/-!
Verification of the lulu-intelligence-dashboard streaming core against its
specification.  The Python sources are shallowly embedded: every random
draw (uniform, Gaussian, choice) becomes an explicit input, floats become
rationals, Python `int()` truncation becomes `truncQ`, and the mutable
fields of the generator object are threaded as explicit state.
-/

namespace LuluDash

/-- A value of Python's `random.random()`: a rational in `[0, 1)`. -/
abbrev Unif : Type := {q : ℚ // 0 ≤ q ∧ q < 1}

/-- Per (store, item) statistical profile held in
`DataGenerator.historical_stats` (`data_generator.py`): keys
`mean`, `std`, `min`, `max`. -/
structure ItemStats where
  mean : ℚ
  std : ℚ
  min : ℤ
  max : ℤ

/-- The global default profile used by `historical_stats.get(key, {...})`
in `_generate_sale_value`: `{'mean': 15, 'std': 5, 'min': 0, 'max': 100}`. -/
def defaultStats : ItemStats := ⟨15, 5, 0, 100⟩

/-- The transaction categories of `DataGenerator.TRANSACTION_TYPES`.
`ret` stands for the Python string `'return'` (a Lean keyword). -/
inductive TransactionType where
  | regular_sale
  | promotional_sale
  | ret
  | bulk_purchase
  | slow_period
deriving DecidableEq

/-- Python `int()` truncation toward zero, on a rational. -/
def truncQ (q : ℚ) : ℤ := if 0 ≤ q then ⌊q⌋ else ⌈q⌉

/-- The random and environment inputs consumed by one call of
`DataGenerator._generate_sale_value`.  Gaussian draws (`np.random.normal`)
are unbounded, so they appear as unconstrained rationals holding the
sampled outcome; uniform draws are `Unif`. -/
structure SaleDraws where
  /-- `datetime.now().weekday()` (0 = Monday .. 6 = Sunday). -/
  dayOfWeek : ℕ
  /-- the value of `np.sin(2 * np.pi * day_of_week / 7)`. -/
  seasonSin : ℚ
  /-- result of `self._get_time_of_day_factor()`. -/
  timeFactor : ℚ
  /-- outcome of `np.random.normal(mean * factors, adjusted_std)` (`base_value`). -/
  baseDraw : ℚ
  /-- outcome of `np.random.normal(stats['mean']*0.6, stats['std']*0.5)`. -/
  retDraw : ℚ
  /-- `random.random()` in the promotional branch. -/
  promoU : Unif
  /-- `random.random()` in the bulk branch. -/
  bulkU : Unif
  /-- `random.random()` in the slow-period branch. -/
  slowU : Unif
  /-- outcome of `np.random.normal(0, stats['std'] * 0.3)`. -/
  noiseDraw : ℚ

/-- `weekend_factor = 1.2 if day_of_week >= 5 else 1.0`. -/
def weekendFactor (dayOfWeek : ℕ) : ℚ := if 5 ≤ dayOfWeek then 6 / 5 else 1

/-- `seasonality_factor = 1.0 + 0.15 * np.sin(2 * np.pi * day_of_week / 7)`. -/
def seasonalityFactor (d : SaleDraws) : ℚ := 1 + (3 / 20) * d.seasonSin

/-- The mean handed to `np.random.normal` for `base_value`
(`stats['mean'] * seasonality_factor * weekend_factor * time_factor *
self.market_sentiment`); the sampled outcome itself is `d.baseDraw`. -/
def baseMean (stats : ItemStats) (sentiment : ℚ) (d : SaleDraws) : ℚ :=
  stats.mean * seasonalityFactor d * weekendFactor d.dayOfWeek * d.timeFactor * sentiment

/-- `adjusted_std = stats['std'] * self.volatility_factor * 1.5`. -/
def adjustedStd (stats : ItemStats) (volatility : ℚ) : ℚ := stats.std * volatility * (3 / 2)

/-- The non-return `value` right before the floor/cap step of
`_generate_sale_value`: the category-specific transform applied to
`base_value` (`d.baseDraw`).  The `ret` arm is never consulted by
`generate_sale_value` (returns take the early-return branch). -/
def preCapValue (d : SaleDraws) (t : TransactionType) : ℚ :=
  match t with
  | .promotional_sale => d.baseDraw * (3 / 2 + d.promoU.1)
  | .bulk_purchase => d.baseDraw * (3 + d.bulkU.1 * 4)
  | .slow_period => d.baseDraw * (1 / 10 + d.slowU.1 * (3 / 10))
  | _ => d.baseDraw + d.noiseDraw

/-- Embedding of `DataGenerator._generate_sale_value` (data_generator.py
lines 148-201).  Returns the integer sale value together with the new
`self.consecutive_returns`.  The return branch computes
`-int(max(1, min(|retDraw|, stats['max'] * 0.8)))` and increments the
counter; every other branch resets the counter to 0 and applies
`max(1, min(stats['max'] * 2, int(value)))`. -/
def generate_sale_value (stats : ItemStats) (t : TransactionType)
    (consecutiveReturns : ℕ) (d : SaleDraws) : ℤ × ℕ :=
  if t = TransactionType.ret then
    let returnMagnitude : ℚ := |d.retDraw|
    let value : ℤ := -(truncQ (max 1 (min returnMagnitude ((stats.max : ℚ) * (4 / 5)))))
    (value, consecutiveReturns + 1)
  else
    let value : ℤ := max 1 (min (stats.max * 2) (truncQ (preCapValue d t)))
    (value, 0)

/-- The in-memory profile table `self.historical_stats`, keyed by
`(store_id, item_id)`. -/
abbrev ProfileMap : Type := List ((ℕ × ℕ) × ItemStats)

/-- `self.historical_stats.get(key, default)`: dictionary lookup with the
global default profile. -/
def profileLookup (m : ProfileMap) (key : ℕ × ℕ) : ItemStats :=
  (((m.find? (fun e => e.1 = key)).map Prod.snd)).getD defaultStats

/-- `high_return_items = [5, 12, 18, 25, 33, 41, 48]`
(`_generate_and_store_sale`). -/
def highReturnItems : List ℕ := [5, 12, 18, 25, 33, 41, 48]

/-- The category pipeline of one tick of
`DataGenerator._generate_and_store_sale` (lines 203-239), after the
classifier: first the damping rule
(`if self.consecutive_returns >= 5 and transaction_type == 'return':
transaction_type = 'regular_sale'`), then — after store/item sampling —
the per-item override
(`if item_id in high_return_items and random.random() < 0.15:
transaction_type = 'return'`).  `ovr` is the outcome of that 15% draw. -/
def tickCategory (consecutiveReturns : ℕ) (classifierOut : TransactionType)
    (itemId : ℕ) (ovr : Bool) : TransactionType :=
  let damped :=
    if 5 ≤ consecutiveReturns ∧ classifierOut = TransactionType.ret then
      TransactionType.regular_sale
    else classifierOut
  if itemId ∈ highReturnItems ∧ ovr = true then TransactionType.ret else damped

/-- The random inputs of one tick of `_generate_and_store_sale`:
the sampled store and item, the classifier's output
(`self._get_transaction_type()`), the high-return 15% draw, and the
draws consumed by `_generate_sale_value`. -/
structure TickInput where
  storeId : ℕ
  itemId : ℕ
  classifierOut : TransactionType
  overrideDraw : Bool
  draws : SaleDraws

/-- One tick of `_generate_and_store_sale`, restricted to the state the
claims are about: the final category, the stored sale value, and the new
`consecutive_returns`.  The market-condition update touches only
`MarketState` (no counter), and classification is modeled by its outcome
`inp.classifierOut`. -/
def tick (profiles : ProfileMap) (consecutiveReturns : ℕ) (inp : TickInput) :
    ℤ × TransactionType × ℕ :=
  let t := tickCategory consecutiveReturns inp.classifierOut inp.itemId inp.overrideDraw
  let r := generate_sale_value (profileLookup profiles (inp.storeId, inp.itemId)) t
    consecutiveReturns inp.draws
  (r.1, t, r.2)

/-- The sequence of final categories over a run of the generation loop,
threading `consecutive_returns` from tick to tick. -/
def runCategories (profiles : ProfileMap) (consecutiveReturns : ℕ) :
    List TickInput → List TransactionType
  | [] => []
  | inp :: rest =>
    let r := tick profiles consecutiveReturns inp
    r.2.1 :: runCategories profiles r.2.2 rest

/-- The market fields of the generator: `self.market_sentiment` and
`self.volatility_factor`. -/
structure MarketState where
  sentiment : ℚ
  volatility : ℚ

/-- Initial state from `DataGenerator.__init__`:
`market_sentiment = 1.0`, `volatility_factor = 1.0`. -/
def initialMarketState : MarketState := ⟨1, 1⟩

/-- The random inputs of one call of
`DataGenerator._update_market_conditions`. -/
structure MarketDraw where
  /-- whether `(now - last_update).seconds > random.randint(30, 90)`. -/
  eligible : Bool
  /-- outcome of `np.random.normal(0, 0.15)`. -/
  stepDraw : ℚ
  /-- whether `random.random() < 0.1` (market shock). -/
  shock : Bool
  /-- `random.choice([-0.3, -0.2, 0.2, 0.3, 0.4])` (any rational: the
  clamp below never relies on the choice set). -/
  shockVal : ℚ
  /-- `random.random()` in `0.8 + random.random() * 0.8`. -/
  volDraw : Unif

/-- Embedding of `DataGenerator._update_market_conditions` (lines 73-91):
when eligible, a clamped random-walk step
`max(0.4, min(1.6, sentiment + step))`, an optional shock clamped to
`max(0.3, min(1.8, ...))`, and `volatility = 0.8 + random.random() * 0.8`. -/
def update_market_conditions (s : MarketState) (u : MarketDraw) : MarketState :=
  if u.eligible then
    let s1 := max (4 / 10) (min (16 / 10) (s.sentiment + u.stepDraw))
    let s2 := if u.shock then max (3 / 10) (min (18 / 10) (s1 + u.shockVal)) else s1
    { sentiment := s2, volatility := 8 / 10 + u.volDraw.1 * (8 / 10) }
  else s

/-- Iterated market updates over a list of draws. -/
def runMarket (s : MarketState) (us : List MarketDraw) : MarketState :=
  us.foldl update_market_conditions s

/-- Whether `DataGenerator.start()` (lines 293-318) reaches its
`while self.is_running` generation loop.  `start` awaits
`self._load_historical_stats()` with no surrounding try/except before the
loop, so the load's outcome (`.ok` profiles, or `.error` for a raised
exception) decides whether the loop is entered. -/
def startModel (loadResult : Except String ProfileMap) : Except String ProfileMap :=
  match loadResult with
  | Except.error e => Except.error e
  | Except.ok m => Except.ok m

/-- True exactly when `start()` proceeds into its generation loop. -/
def enteredLoop (r : Except String ProfileMap) : Bool :=
  match r with
  | Except.ok _ => true
  | Except.error _ => false

/-- The alerts a detector contributes in
`DataSyncService.generate_alerts_from_sales`: its list on success, nothing
when its exception is swallowed by an inner `except: pass`. -/
def detectorAlerts {α : Type} (d : Except String (List α)) : List α :=
  match d with
  | Except.ok l => l
  | Except.error _ => []

/-- Embedding of the error structure of
`DataSyncService.generate_alerts_from_sales` (data_sync.py lines 415-600):
detector 1 (low/out-of-stock) runs directly inside the outer
`try`, whose handler logs and re-`raise`s; detectors 2 (volume anomaly)
and 3 (store trend) each sit in an inner `try/except Exception: pass`.
Each detector is modeled by its outcome: the alert list it appends, or an
error for a raised exception. -/
def generate_alerts_from_sales {α : Type}
    (lowStock anomaly storeTrend : Except String (List α)) : Except String (List α) :=
  match lowStock with
  | Except.error e => Except.error e
  | Except.ok a1 => Except.ok (a1 ++ detectorAlerts anomaly ++ detectorAlerts storeTrend)

/-- `CACHE_TTL = 30` of `data_sync.py` (module level, seconds). -/
def CACHE_TTL : ℕ := 30

/-- The `_query_cache` of data_sync.py: key to (data, timestamp). -/
abbrev QueryCache (α : Type) : Type := List (String × α × ℕ)

/-- Embedding of `_get_cache` (data_sync.py lines 19-26).  Timestamps and
the clock are in whole seconds; `(datetime.now() - timestamp).seconds` is
the `seconds` component of the timedelta — the elapsed time modulo one day
(86400 s) — not its total. -/
def get_cache {α : Type} (cache : QueryCache α) (key : String) (now : ℕ) : Option α :=
  match cache.find? (fun e => e.1 = key) with
  | some entry => if (now - entry.2.2) % 86400 < CACHE_TTL then some entry.2.1 else none
  | none => none

/-- Embedding of `_set_cache` (data_sync.py lines 28-37): stores
`(data, now)` under the key, then — only when the cache holds more than
100 entries — drops entries whose timedelta `seconds` component exceeds
`CACHE_TTL * 2`. -/
def set_cache {α : Type} (cache : QueryCache α) (key : String) (data : α) (now : ℕ) :
    QueryCache α :=
  let updated := (key, data, now) :: cache.filter (fun e => e.1 ≠ key)
  if 100 < updated.length then
    updated.filter (fun e => ¬ (CACHE_TTL * 2 < (now - e.2.2) % 86400))
  else updated

/-- A server-sent-event frame: the one synthetic connection
acknowledgement, or a channel data frame with its event name. -/
inductive SSEFrame where
  | connected (payload : String)
  | data (event : String) (payload : String)
deriving DecidableEq

/-- Whether a frame is the connection acknowledgement. -/
def isConnectedFrame : SSEFrame → Bool
  | SSEFrame.connected _ => true
  | SSEFrame.data _ _ => false

/-- Payload of the `connected` frame of `stream.py`'s sales generator:
`json.dumps({"message": "Connected to sales stream"})`. -/
def salesConnectedPayload : String := "\x7b\"message\": \"Connected to sales stream\"\x7d"

/-- Payload of the `connected` frame of `alerts_event_generator`. -/
def alertsConnectedPayload : String := "\x7b\"message\": \"Connected to alerts stream\"\x7d"

/-- Payload of the `connected` frame of `inventory_event_generator`. -/
def inventoryConnectedPayload : String :=
  "\x7b\"message\": \"Connected to inventory stream\"\x7d"

/-- Trace of `event_generator` in `routes/stream.py` (lines 76-108): one
`connected` frame, then one `sales` data frame per loop iteration whose
`pubsub.get_message` returned a message (`polls` lists those outcomes
until disconnect). -/
def event_generator_trace (polls : List (Option String)) : List SSEFrame :=
  SSEFrame.connected salesConnectedPayload ::
    polls.filterMap (fun m => m.map (SSEFrame.data "sales"))

/-- The random outcomes of one iteration of `alerts_event_generator`'s
loop: a Redis message, and the periodically generated alert when the
counter threshold fires. -/
structure AlertsStep where
  redisMsg : Option String
  genAlert : Option String

/-- Frames one alerts-loop iteration yields. -/
def alertsStepFrames (st : AlertsStep) : List SSEFrame :=
  (st.redisMsg.map (SSEFrame.data "alert")).toList ++
    (st.genAlert.map (SSEFrame.data "alert")).toList

/-- Trace of `alerts_event_generator` (stream.py lines 321-377): one
`connected` frame, the initial batch of three generated alerts
(`initial_alerts = [generate_live_alert() for _ in range(3)]`), then the
loop's frames. -/
def alerts_event_generator_trace (a1 a2 a3 : String) (steps : List AlertsStep) :
    List SSEFrame :=
  SSEFrame.connected alertsConnectedPayload ::
    (SSEFrame.data "alert" a1 :: SSEFrame.data "alert" a2 :: SSEFrame.data "alert" a3 ::
      (steps.map alertsStepFrames).flatten)

/-- The random outcomes of one iteration of
`inventory_event_generator`'s loop.  When the periodic update fires with a
critical status the code additionally publishes an alert to the bus, but
yields no extra frame for it. -/
structure InventoryStep where
  redisMsg : Option String
  genUpdate : Option String

/-- Frames one inventory-loop iteration yields. -/
def inventoryStepFrames (st : InventoryStep) : List SSEFrame :=
  (st.redisMsg.map (SSEFrame.data "inventory_update")).toList ++
    (st.genUpdate.map (SSEFrame.data "inventory_update")).toList

/-- Trace of `inventory_event_generator` (stream.py lines 380-447): one
`connected` frame, then the loop's `inventory_update` frames. -/
def inventory_event_generator_trace (steps : List InventoryStep) : List SSEFrame :=
  SSEFrame.connected inventoryConnectedPayload :: (steps.map inventoryStepFrames).flatten

/-- Trace of `event_generator` in `routes/streaming.py` (lines 11-37),
mounted at GET /api/stream: the loop yields a `new_sale` data frame per
received message — and nothing else.  No connection-acknowledgement frame
is ever emitted. -/
def legacy_event_generator_trace (polls : List (Option String)) : List SSEFrame :=
  polls.filterMap (fun m => m.map (SSEFrame.data "new_sale"))

/-- Two to the 32nd: the modulus of MD5's 32-bit arithmetic. -/
def m32 : ℕ := 4294967296

/-- Addition modulo 2^32. -/
def add32 (a b : ℕ) : ℕ := (a + b) % m32

/-- Bitwise complement within 32 bits. -/
def bnot32 (a : ℕ) : ℕ := Nat.xor a (m32 - 1)

/-- Left rotation of a 32-bit word by `n` places (for `x < 2^32`). -/
def rotl32 (x n : ℕ) : ℕ := (x * 2 ^ n + x / 2 ^ (32 - n)) % m32

/-- The 64 MD5 round constants `K[i] = floor(2^32 * |sin(i + 1)|)`. -/
def md5K : List ℕ :=
  [3614090360, 3905402710, 606105819, 3250441966, 4118548399, 1200080426, 2821735955,
   4249261313, 1770035416, 2336552879, 4294925233, 2304563134, 1804603682, 4254626195,
   2792965006, 1236535329, 4129170786, 3225465664, 643717713, 3921069994, 3593408605,
   38016083, 3634488961, 3889429448, 568446438, 3275163606, 4107603335, 1163531501,
   2850285829, 4243563512, 1735328473, 2368359562, 4294588738, 2272392833, 1839030562,
   4259657740, 2763975236, 1272893353, 4139469664, 3200236656, 681279174, 3936430074,
   3572445317, 76029189, 3654602809, 3873151461, 530742520, 3299628645, 4096336452,
   1126891415, 2878612391, 4237533241, 1700485571, 2399980690, 4293915773, 2240044497,
   1873313359, 4264355552, 2734768916, 1309151649, 4149444226, 3174756917, 718787259,
   3951481745]

/-- The 64 MD5 per-round left-rotation amounts. -/
def md5S : List ℕ :=
  [7, 12, 17, 22, 7, 12, 17, 22, 7, 12, 17, 22, 7, 12, 17, 22,
   5, 9, 14, 20, 5, 9, 14, 20, 5, 9, 14, 20, 5, 9, 14, 20,
   4, 11, 16, 23, 4, 11, 16, 23, 4, 11, 16, 23, 4, 11, 16, 23,
   6, 10, 15, 21, 6, 10, 15, 21, 6, 10, 15, 21, 6, 10, 15, 21]

/-- The MD5 nonlinear mixing function of round `i`. -/
def md5Mix (x y z i : ℕ) : ℕ :=
  if i < 16 then Nat.lor (Nat.land x y) (Nat.land (bnot32 x) z)
  else if i < 32 then Nat.lor (Nat.land x z) (Nat.land y (bnot32 z))
  else if i < 48 then Nat.xor (Nat.xor x y) z
  else Nat.xor y (Nat.lor x (bnot32 z))

/-- Which message word round `i` consumes. -/
def md5MsgIndex (i : ℕ) : ℕ :=
  if i < 16 then i
  else if i < 32 then (5 * i + 1) % 16
  else if i < 48 then (3 * i + 5) % 16
  else (7 * i) % 16

/-- One MD5 round applied to the running `(a, b, c, d)` state. -/
def md5Step (M : List ℕ) (st : ℕ × ℕ × ℕ × ℕ) (i : ℕ) : ℕ × ℕ × ℕ × ℕ :=
  let a := st.1
  let b := st.2.1
  let c := st.2.2.1
  let d := st.2.2.2
  let tmp := add32 (add32 (add32 a (md5Mix b c d i)) (md5K.getD i 0))
    (M.getD (md5MsgIndex i) 0)
  (d, add32 b (rotl32 tmp (md5S.getD i 0)), b, c)

/-- One 512-bit chunk: 64 rounds, then addition into the incoming state. -/
def md5Chunk (st : ℕ × ℕ × ℕ × ℕ) (M : List ℕ) : ℕ × ℕ × ℕ × ℕ :=
  let r := (List.range 64).foldl (md5Step M) st
  (add32 st.1 r.1, add32 st.2.1 r.2.1, add32 st.2.2.1 r.2.2.1, add32 st.2.2.2 r.2.2.2)

/-- The `count` least-significant bytes of `n`, little-endian. -/
def leBytes (n count : ℕ) : List ℕ := (List.range count).map (fun i => n / 2 ^ (8 * i) % 256)

/-- MD5 padding: a 0x80 byte, zeros to 56 mod 64, then the bit length as
eight little-endian bytes. -/
def padMessage (msg : List ℕ) : List ℕ :=
  msg ++ [128] ++ List.replicate ((119 - msg.length % 64) % 64) 0 ++
    leBytes (msg.length * 8) 8

/-- Four little-endian bytes to a 32-bit word. -/
def bytesToWord (bs : List ℕ) : ℕ := bs.foldr (fun b acc => b + 256 * acc) 0

/-- The sixteen 32-bit message words of one 64-byte chunk. -/
def wordsOfChunk (chunk : List ℕ) : List ℕ :=
  (List.range 16).map (fun j => bytesToWord ((chunk.drop (4 * j)).take 4))

/-- The MD5 digest of a byte sequence, as its sixteen bytes. -/
def md5Digest (msg : List ℕ) : List ℕ :=
  let padded := padMessage msg
  let chunks := (List.range (padded.length / 64)).map
    (fun i => (padded.drop (64 * i)).take 64)
  let r := chunks.foldl (fun st ch => md5Chunk st (wordsOfChunk ch))
    (1732584193, 4023233417, 2562383102, 271733878)
  leBytes r.1 4 ++ leBytes r.2.1 4 ++ leBytes r.2.2.1 4 ++ leBytes r.2.2.2 4

/-- Lowercase hexadecimal digit of `n < 16` (clamped to `'0'` beyond). -/
def hexDigitChar (n : ℕ) : Char := "0123456789abcdef".data.getD n '0'

/-- The two lowercase hex characters of one byte. -/
def byteToHex (b : ℕ) : List Char := [hexDigitChar (b / 16), hexDigitChar (b % 16)]

/-- The UTF-8 bytes of a string: Python's `str.encode()`. -/
def strBytes (s : String) : List ℕ := s.toUTF8.toList.map (fun b => b.toNat)

/-- The characters of `hashlib.md5(s.encode()).hexdigest()`. -/
def md5HexChars (s : String) : List Char := ((md5Digest (strBytes s)).map byteToHex).flatten

/-- `hashlib.md5(s.encode()).hexdigest()` as a string. -/
def md5Hexdigest (s : String) : String := String.mk (md5HexChars s)

/-- The key-comparison relation `json.dumps(..., sort_keys=True)` sorts
parameter entries by. -/
def keyLE (a b : String × String) : Prop := a.1 ≤ b.1

/-- Strict version of `keyLE`, holding between entries of a sorted
duplicate-free parameter list. -/
def keyLT (a b : String × String) : Prop := a.1 < b.1

instance : DecidableRel keyLE := fun a b => inferInstanceAs (Decidable (a.1 ≤ b.1))

instance : IsTotal (String × String) keyLE := ⟨fun a b => le_total a.1 b.1⟩

instance : IsTrans (String × String) keyLE := ⟨fun _ _ _ h1 h2 => le_trans h1 h2⟩

instance : IsAntisymm (String × String) keyLT :=
  ⟨fun _ _ h1 h2 => absurd h2 (lt_asymm h1)⟩

/-- Model of `json.dumps(kwargs, sort_keys=True, default=str)` in
`generate_cache_key` (cache.py line 32).  A keyword-argument set is a list
of (name, serialized JSON value) pairs with distinct names; the names are
taken JSON-plain (no escapes), serialization sorts entries by name and
joins them with json.dumps's default `", "` and `": "` separators. -/
def dumpsSortedKeys (kwargs : List (String × String)) : String :=
  "\x7b" ++ String.intercalate ", "
    ((kwargs.insertionSort keyLE).map (fun p => "\"" ++ p.1 ++ "\": " ++ p.2)) ++ "\x7d"

/-- Embedding of `generate_cache_key` (cache.py lines 30-34): the source
names its first parameter `prefix` (a reserved token here).
`params_hash = hashlib.md5(params_str.encode()).hexdigest()[:12]`, and the
key is `f"cache:{prefix}:{params_hash}"`. -/
def generate_cache_key (pre : String) (kwargs : List (String × String)) : String :=
  let params_hash := String.mk ((md5HexChars (dumpsSortedKeys kwargs)).take 12)
  "cache:" ++ pre ++ ":" ++ params_hash

/-- The zero element of `[0, 1)`. -/
def unifZero : Unif := ⟨0, by norm_num⟩

/-- A concrete all-zero draw record for counterexample runs. -/
def zeroDraws : SaleDraws := ⟨0, 0, 0, 0, 0, unifZero, unifZero, unifZero, 0⟩

/-- Six concrete ticks: the classifier emits `return` each time on
high-return item 5; the 15% per-item override fires only on the sixth
tick, when `consecutive_returns` has already reached 5. -/
def sixReturnTicks : List TickInput :=
  List.replicate 5 ⟨1, 5, TransactionType.ret, false, zeroDraws⟩ ++
    [⟨1, 5, TransactionType.ret, true, zeroDraws⟩]

/-- The bounds the specification asserts for `MarketState`. -/
def marketInv (s : MarketState) : Prop :=
  3 / 10 ≤ s.sentiment ∧ s.sentiment ≤ 18 / 10 ∧
    8 / 10 ≤ s.volatility ∧ s.volatility ≤ 16 / 10

/-- A rational at least 1 truncates to an integer at least 1. -/
theorem one_le_truncQ {q : ℚ} (h : 1 ≤ q) : 1 ≤ truncQ q := by
  unfold truncQ
  rw [if_pos (le_trans zero_le_one h)]
  exact Int.le_floor.mpr (by exact_mod_cast h)

/-- The value of the return branch of `generate_sale_value` is at most -1. -/
theorem return_value_le_neg_one (stats : ItemStats) (cr : ℕ) (d : SaleDraws) :
    (generate_sale_value stats TransactionType.ret cr d).1 ≤ -1 := by
  have h1 : (1 : ℚ) ≤ max 1 (min |d.retDraw| ((stats.max : ℚ) * (4 / 5))) := le_max_left _ _
  have h2 := one_le_truncQ h1
  show -(truncQ (max 1 (min |d.retDraw| ((stats.max : ℚ) * (4 / 5))))) ≤ -1
  omega

/-- The value of every non-return branch of `generate_sale_value` is at
least 1. -/
theorem nonreturn_value_ge_one (stats : ItemStats) (t : TransactionType) (cr : ℕ)
    (d : SaleDraws) (ht : t ≠ TransactionType.ret) :
    1 ≤ (generate_sale_value stats t cr d).1 := by
  simp only [generate_sale_value, if_neg ht]
  exact le_max_left _ _

/-- Claim C1: for every sale generated by `_generate_sale_value` (any
store/item profile, any category, any counter, any random draws), the
returned integer is strictly negative exactly when the category is
`return`; a return always yields at most -1 and every other category at
least 1 after the floor/cap step. -/
theorem C1_quantity_negative_iff_return (stats : ItemStats) (t : TransactionType)
    (cr : ℕ) (d : SaleDraws) :
    ((generate_sale_value stats t cr d).1 < 0 ↔ t = TransactionType.ret) ∧
    (if t = TransactionType.ret then (generate_sale_value stats t cr d).1 ≤ -1
     else 1 ≤ (generate_sale_value stats t cr d).1) := by
  by_cases h : t = TransactionType.ret
  · subst h
    refine ⟨⟨fun _ => rfl, fun _ => ?_⟩, ?_⟩
    · have := return_value_le_neg_one stats cr d
      omega
    · rw [if_pos rfl]
      exact return_value_le_neg_one stats cr d
  · have h1 := nonreturn_value_ge_one stats t cr d h
    refine ⟨⟨fun hlt => absurd h1 (by omega), fun ht => absurd ht h⟩, ?_⟩
    rw [if_neg h]
    exact h1

/-- Claim C10: `_generate_sale_value` maintains `consecutive_returns` as
the current return-streak length: a `return` increments it by exactly 1,
every other category resets it to 0; and a full tick of
`_generate_and_store_sale` changes the counter only through that call
(the market update acts on `MarketState`, which has no counter field). -/
theorem C10_counter_maintenance (stats : ItemStats) (t : TransactionType) (cr : ℕ)
    (d : SaleDraws) (profiles : ProfileMap) (inp : TickInput) :
    (generate_sale_value stats t cr d).2 =
      (if t = TransactionType.ret then cr + 1 else 0) ∧
    (tick profiles cr inp).2.2 =
      (if tickCategory cr inp.classifierOut inp.itemId inp.overrideDraw =
          TransactionType.ret then cr + 1 else 0) := by
  constructor
  · by_cases h : t = TransactionType.ret <;> simp [generate_sale_value, h]
  · by_cases h : tickCategory cr inp.classifierOut inp.itemId inp.overrideDraw =
        TransactionType.ret <;>
      simp [tick, generate_sale_value, h]

/-- Claim C2, amended: when five consecutive ticks have produced `return`,
the damping rule replaces the classifier's `return` with `regular_sale` —
but the per-item high-return override runs after the damping and, when it
fires (item in the high-return set and the 15% draw passes), sets the
category back to `return`.  The next tick's category is therefore
non-`return` unless that override fires. -/
theorem C2_damping_unless_override (k : ℕ) (c : TransactionType) (item : ℕ) (ovr : Bool) :
    (item ∈ highReturnItems ∧ ovr = true) ∨
      tickCategory (5 + k) c item ovr ≠ TransactionType.ret := by
  by_cases h : item ∈ highReturnItems ∧ ovr = true
  · exact Or.inl h
  right
  simp only [tickCategory, if_neg h]
  by_cases hc : c = TransactionType.ret
  · rw [if_pos ⟨Nat.le_add_right 5 k, hc⟩]
    decide
  · rw [if_neg (fun hh => hc hh.2)]
    exact hc

/-- Counterexample to claim C2 as stated: a run of six ticks in which all
six generated events carry category `return`.  The damping rule fires on
the sixth tick (the counter is 5), but the later per-item override
reintroduces `return`. -/
theorem C2_six_consecutive_returns :
    runCategories [] 0 sixReturnTicks =
      [TransactionType.ret, TransactionType.ret, TransactionType.ret,
       TransactionType.ret, TransactionType.ret, TransactionType.ret] := by
  decide

/-- Claim C3, amended: failures of the volume-anomaly and store-trend
detectors are isolated (the generator returns the union of the remaining
detectors' alerts), but a failure of the low/out-of-stock detector
propagates out of `generate_alerts_from_sales` and suppresses the other
detectors' results. -/
theorem C3_detector_isolation_partial (α : Type) (a1 : List α)
    (d2 d3 : Except String (List α)) (e : String) :
    generate_alerts_from_sales (Except.ok a1) d2 d3 =
      Except.ok (a1 ++ detectorAlerts d2 ++ detectorAlerts d3) ∧
    generate_alerts_from_sales (α := α) (Except.error e) d2 d3 = Except.error e :=
  ⟨rfl, rfl⟩

/-- Counterexample to claim C3 as stated: when the low-stock detector
raises and both other detectors succeed, the function raises instead of
returning the union of the succeeding detectors' alerts. -/
theorem C3_lowstock_failure_suppresses_all :
    generate_alerts_from_sales (Except.error "low-stock query failed")
        (Except.ok [(1 : ℕ)]) (Except.ok [2]) = Except.error "low-stock query failed" ∧
    generate_alerts_from_sales (Except.error "low-stock query failed")
        (Except.ok [(1 : ℕ)]) (Except.ok [2]) ≠ Except.ok [1, 2] := by
  exact ⟨rfl, by simp [generate_alerts_from_sales]⟩

/-- Claim C4, amended: an empty profile store makes every (store, item)
lookup fall back to the global default profile {mean=15, stddev=5, min=0,
max=100}; but a failure of the historical load is not caught by `start()`
— the exception propagates and the generation loop is never entered. -/
theorem C4_degraded_startup_amended (k : ℕ × ℕ) (e : String) (m : ProfileMap) :
    profileLookup [] k = defaultStats ∧
    startModel (Except.error e) = Except.error e ∧
    enteredLoop (startModel (Except.error e)) = false ∧
    startModel (Except.ok m) = Except.ok m :=
  ⟨rfl, rfl, rfl, rfl⟩

/-- Counterexample to claim C4 as stated: with the historical source
unavailable, `start()` terminates with the load's error and does not
proceed into its generation loop. -/
theorem C4_start_error_no_loop :
    enteredLoop (startModel (Except.error "historical source unavailable")) = false :=
  rfl

/-- One market update preserves the specification's bounds. -/
theorem market_step_inv (s : MarketState) (u : MarketDraw) (h : marketInv s) :
    marketInv (update_market_conditions s u) := by
  obtain ⟨h1, h2, h3, h4⟩ := h
  have hv0 := u.volDraw.2.1
  have hv1 := u.volDraw.2.2
  have hvmul : u.volDraw.1 * (8 / 10) < 1 * (8 / 10) :=
    mul_lt_mul_of_pos_right hv1 (by norm_num)
  have hvnn : 0 ≤ u.volDraw.1 * (8 / 10) := mul_nonneg hv0 (by norm_num)
  have hs1lo : (4 / 10 : ℚ) ≤ max (4 / 10) (min (16 / 10) (s.sentiment + u.stepDraw)) :=
    le_max_left _ _
  have hs1hi : max (4 / 10) (min (16 / 10) (s.sentiment + u.stepDraw)) ≤ (16 / 10 : ℚ) :=
    max_le (by norm_num) (min_le_left _ _)
  simp only [update_market_conditions, marketInv]
  split_ifs with he hs
  · exact ⟨le_trans (by norm_num) (le_max_left _ _),
      max_le (by norm_num) (min_le_left _ _), by linarith, by linarith⟩
  · exact ⟨by linarith, by linarith, by linarith, by linarith⟩
  · exact ⟨h1, h2, h3, h4⟩

/-- The market bounds hold along every run of updates. -/
theorem market_run_inv (us : List MarketDraw) :
    ∀ s, marketInv s → marketInv (runMarket s us) := by
  induction us with
  | nil => intro s h; exact h
  | cons u rest ih =>
    intro s h
    have : runMarket s (u :: rest) = runMarket (update_market_conditions s u) rest := rfl
    rw [this]
    exact ih _ (market_step_inv s u h)

/-- Claim C5: starting from sentiment = 1.0 and volatility = 1.0, after
any number of `_update_market_conditions` steps and for all random draws
(including shocks), `market_sentiment` stays within [0.3, 1.8] and
`volatility_factor` within [0.8, 1.6]. -/
theorem C5_market_bounds (us : List MarketDraw) :
    3 / 10 ≤ (runMarket initialMarketState us).sentiment ∧
    (runMarket initialMarketState us).sentiment ≤ 18 / 10 ∧
    8 / 10 ≤ (runMarket initialMarketState us).volatility ∧
    (runMarket initialMarketState us).volatility ≤ 16 / 10 :=
  market_run_inv us initialMarketState (by norm_num [marketInv, initialMarketState])

/-- Every frame produced by a poll loop over channel data is a data
frame, never a connection acknowledgement. -/
theorem countP_connected_filterMap (name : String) (polls : List (Option String)) :
    (polls.filterMap (fun m => m.map (SSEFrame.data name))).countP isConnectedFrame = 0 := by
  rw [List.countP_eq_zero]
  intro f hf
  obtain ⟨m, _, hmap⟩ := List.mem_filterMap.mp hf
  cases m with
  | none => simp at hmap
  | some p =>
    have hh : SSEFrame.data name p = f := by simpa using hmap
    rw [← hh]
    simp [isConnectedFrame]

/-- The alerts loop yields only data frames. -/
theorem countP_connected_alerts_loop (steps : List AlertsStep) :
    ((steps.map alertsStepFrames).flatten).countP isConnectedFrame = 0 := by
  rw [List.countP_eq_zero]
  intro f hf
  obtain ⟨l, hl, hfl⟩ := List.mem_flatten.mp hf
  obtain ⟨st, _, rfl⟩ := List.mem_map.mp hl
  unfold alertsStepFrames at hfl
  rcases List.mem_append.mp hfl with h | h <;>
    cases hm : (st.redisMsg) <;> cases hg : (st.genAlert) <;>
      simp_all [isConnectedFrame]

/-- The inventory loop yields only data frames. -/
theorem countP_connected_inventory_loop (steps : List InventoryStep) :
    ((steps.map inventoryStepFrames).flatten).countP isConnectedFrame = 0 := by
  rw [List.countP_eq_zero]
  intro f hf
  obtain ⟨l, hl, hfl⟩ := List.mem_flatten.mp hf
  obtain ⟨st, _, rfl⟩ := List.mem_map.mp hl
  unfold inventoryStepFrames at hfl
  rcases List.mem_append.mp hfl with h | h <;>
    cases hm : (st.redisMsg) <;> cases hg : (st.genUpdate) <;>
      simp_all [isConnectedFrame]

/-- Claim C6, amended: each of the three generators of `routes/stream.py`
(sales, alerts, inventory) emits exactly one connection-acknowledgement
frame, as its first frame, before any channel data frame; the legacy
generator of `routes/streaming.py` (mounted at GET /api/stream), however,
emits no acknowledgement at all. -/
theorem C6_ack_first_for_stream_py (polls : List (Option String)) (a1 a2 a3 : String)
    (asteps : List AlertsStep) (isteps : List InventoryStep) :
    ((event_generator_trace polls).head? =
        some (SSEFrame.connected salesConnectedPayload) ∧
      (event_generator_trace polls).countP isConnectedFrame = 1) ∧
    ((alerts_event_generator_trace a1 a2 a3 asteps).head? =
        some (SSEFrame.connected alertsConnectedPayload) ∧
      (alerts_event_generator_trace a1 a2 a3 asteps).countP isConnectedFrame = 1) ∧
    ((inventory_event_generator_trace isteps).head? =
        some (SSEFrame.connected inventoryConnectedPayload) ∧
      (inventory_event_generator_trace isteps).countP isConnectedFrame = 1) := by
  refine ⟨⟨rfl, ?_⟩, ⟨rfl, ?_⟩, ⟨rfl, ?_⟩⟩
  · rw [event_generator_trace, List.countP_cons_of_pos _ _ (by rfl)]
    rw [countP_connected_filterMap]
  · rw [alerts_event_generator_trace, List.countP_cons_of_pos _ _ (by rfl)]
    rw [List.countP_cons_of_neg _ _ (by simp [isConnectedFrame]),
      List.countP_cons_of_neg _ _ (by simp [isConnectedFrame]),
      List.countP_cons_of_neg _ _ (by simp [isConnectedFrame]),
      countP_connected_alerts_loop]
  · rw [inventory_event_generator_trace, List.countP_cons_of_pos _ _ (by rfl)]
    rw [countP_connected_inventory_loop]

/-- Counterexample to claim C6 as stated: one SSE endpoint of the system
(the legacy sales stream of `routes/streaming.py`) emits a data frame with
no connection-acknowledgement frame before it — its whole trace for a
single received message is one `new_sale` data frame. -/
theorem C6_legacy_endpoint_no_ack :
    legacy_event_generator_trace [some "payload"] =
      [SSEFrame.data "new_sale" "payload"] ∧
    (legacy_event_generator_trace [some "payload"]).countP isConnectedFrame = 0 :=
  ⟨rfl, rfl⟩

/-- Claim C7 (code bug): `_get_cache` compares the `seconds` component of
the elapsed timedelta — the elapsed time modulo one day — against the
TTL, so a value stored with TTL 30 s is returned as a hit by a read one
full day (86400 s ≥ 30 s) after it was stored. -/
theorem C7_ttl_wraps_after_one_day :
    get_cache (set_cache ([] : QueryCache ℕ) "kpis" 7 0) "kpis" 86400 = some 7 ∧
    CACHE_TTL ≤ 86400 - 0 := by
  refine ⟨?_, by decide⟩
  rfl

/-- Claim C8, amended: for the default profile and `bulk_purchase`, the
final integer value always lies in [1, 200] (floored at 1, capped at 2 ×
historical max = 200); but the magnitude before the floor/cap is the
Gaussian `base_value` draw times a multiplier in [3, 7), and it lies in
[45, 105] only in special cases such as `base_value = 15` — the Gaussian
draw is unbounded, so the magnitude is not confined to [45, 105] for all
draws. -/
theorem C8_bulk_final_bounds (cr : ℕ) (d : SaleDraws) :
    (1 ≤ (generate_sale_value defaultStats TransactionType.bulk_purchase cr d).1 ∧
      (generate_sale_value defaultStats TransactionType.bulk_purchase cr d).1 ≤ 200) ∧
    (45 ≤ preCapValue { d with baseDraw := 15 } TransactionType.bulk_purchase ∧
      preCapValue { d with baseDraw := 15 } TransactionType.bulk_purchase ≤ 105) := by
  have hu0 := d.bulkU.2.1
  have hu1 := d.bulkU.2.2
  constructor
  · constructor
    · exact nonreturn_value_ge_one _ _ _ _ (by decide)
    · show max 1 (min ((100 : ℤ) * 2) (truncQ (preCapValue d TransactionType.bulk_purchase)))
        ≤ 200
      exact max_le (by norm_num) (le_trans (min_le_left _ _) (by norm_num))
  · constructor
    · show (45 : ℚ) ≤ 15 * (3 + d.bulkU.1 * 4)
      nlinarith
    · show (15 : ℚ) * (3 + d.bulkU.1 * 4) ≤ 105
      nlinarith

/-- Hex digits produced by `hexDigitChar` are lowercase hex characters. -/
theorem hexDigitChar_mem (n : ℕ) : hexDigitChar n ∈ "0123456789abcdef".data := by
  unfold hexDigitChar
  rw [List.getD_eq_getElem?_getD]
  cases h : "0123456789abcdef".data[n]? with
  | none => simp only [Option.getD_none]; decide
  | some c =>
    simp only [h, Option.getD_some]
    exact List.getElem?_mem h

/-- The little-endian byte list has the requested length. -/
theorem leBytes_length (n c : ℕ) : (leBytes n c).length = c := by
  simp [leBytes]

/-- An MD5 digest consists of sixteen bytes. -/
theorem md5Digest_length (msg : List ℕ) : (md5Digest msg).length = 16 := by
  simp [md5Digest, leBytes_length]

/-- Hex-encoding a byte list doubles its length. -/
theorem byteToHex_flatten_length (ds : List ℕ) :
    ((ds.map byteToHex).flatten).length = 2 * ds.length := by
  induction ds with
  | nil => simp
  | cons b rest ih =>
    simp only [List.map_cons, List.flatten_cons, List.length_append, ih, byteToHex,
      List.length_cons, List.length_nil, List.length_cons]
    omega

/-- An MD5 hexdigest has 32 characters. -/
theorem md5HexChars_length (s : String) : (md5HexChars s).length = 32 := by
  unfold md5HexChars
  rw [byteToHex_flatten_length, md5Digest_length]

/-- Every character of an MD5 hexdigest is a lowercase hex character. -/
theorem md5HexChars_mem (s : String) (c : Char) (hc : c ∈ md5HexChars s) :
    c ∈ "0123456789abcdef".data := by
  unfold md5HexChars at hc
  obtain ⟨l, hl, hcl⟩ := List.mem_flatten.mp hc
  obtain ⟨b, _, rfl⟩ := List.mem_map.mp hl
  rcases (by simpa [byteToHex] using hcl :
      c = hexDigitChar (b / 16) ∨ c = hexDigitChar (b % 16)) with h | h <;>
    exact h ▸ hexDigitChar_mem _

/-- Sorting by entry name is invariant under permutation of a
duplicate-free keyword-argument list. -/
theorem insertionSort_keyLE_congr (kv1 kv2 : List (String × String))
    (hperm : kv1.Perm kv2) (hnd : (kv1.map Prod.fst).Nodup) :
    kv1.insertionSort keyLE = kv2.insertionSort keyLE := by
  have hp : (kv1.insertionSort keyLE).Perm (kv2.insertionSort keyLE) :=
    (List.perm_insertionSort keyLE kv1).trans
      (hperm.trans (List.perm_insertionSort keyLE kv2).symm)
  have hnd2 : (kv2.map Prod.fst).Nodup := ((hperm.map Prod.fst).nodup_iff).mp hnd
  have key_strict : ∀ (l : List (String × String)), (l.map Prod.fst).Nodup →
      List.Sorted keyLT (l.insertionSort keyLE) := by
    intro l hl
    have hsorted : List.Sorted keyLE (l.insertionSort keyLE) :=
      List.sorted_insertionSort keyLE l
    have hne : List.Pairwise (fun a b : String × String => a.1 ≠ b.1)
        (l.insertionSort keyLE) := by
      have : ((l.insertionSort keyLE).map Prod.fst).Nodup :=
        (((List.perm_insertionSort keyLE l).map Prod.fst).nodup_iff).mpr hl
      exact List.pairwise_map.mp this
    exact (hsorted.and hne).imp (fun h => lt_of_le_of_ne h.1 h.2)
  exact List.eq_of_perm_of_sorted hp (key_strict kv1 hnd) (key_strict kv2 hnd2)

/-- Claim C9: `generate_cache_key` returns a string of the exact form
`cache:<operation>:<12 lowercase hex characters>`, and the key is a
function of the parameter set alone: two calls with the same parameters
supplied in different orders produce the identical key, because the
serialization sorts parameters by name before hashing. -/
theorem C9_cache_key_form_and_determinism (p : String) (kv1 kv2 : List (String × String))
    (hperm : kv1.Perm kv2) (hnd : (kv1.map Prod.fst).Nodup) :
    generate_cache_key p kv1 = generate_cache_key p kv2 ∧
    ∃ dg, generate_cache_key p kv1 = "cache:" ++ p ++ ":" ++ dg ∧
      dg.length = 12 ∧ ∀ c ∈ dg.data, c ∈ "0123456789abcdef".data := by
  constructor
  · unfold generate_cache_key dumpsSortedKeys
    rw [insertionSort_keyLE_congr kv1 kv2 hperm hnd]
  · refine ⟨String.mk ((md5HexChars (dumpsSortedKeys kv1)).take 12), rfl, ?_, ?_⟩
    · show ((md5HexChars (dumpsSortedKeys kv1)).take 12).length = 12
      rw [List.length_take, md5HexChars_length]
      decide
    · intro c hc
      exact md5HexChars_mem _ c (List.mem_of_mem_take hc)

/-- Witness for C9 at a concrete parameter set supplied in two orders. -/
theorem C9_cache_key_witness :
    generate_cache_key "inventory_summary"
        [("store_id", "3"), ("category", "\"Dairy\"")] =
      generate_cache_key "inventory_summary"
        [("category", "\"Dairy\""), ("store_id", "3")] ∧
    ∃ dg, generate_cache_key "inventory_summary"
        [("store_id", "3"), ("category", "\"Dairy\"")] =
      "cache:" ++ "inventory_summary" ++ ":" ++ dg ∧
      dg.length = 12 ∧ ∀ c ∈ dg.data, c ∈ "0123456789abcdef".data :=
  C9_cache_key_form_and_determinism "inventory_summary" _ _ (by decide) (by decide)

/-- Counterexample to claim C8 as stated: with the Gaussian base draw at 0
(and the bulk multiplier draw at its low end), the generated magnitude
before the floor/cap is 0, not in [45, 105]. -/
theorem C8_magnitude_escapes_bounds :
    preCapValue zeroDraws TransactionType.bulk_purchase = 0 ∧
    ¬ (45 ≤ preCapValue zeroDraws TransactionType.bulk_purchase) := by
  constructor
  · show (0 : ℚ) * (3 + (0 : ℚ) * 4) = 0
    norm_num
  · show ¬ (45 ≤ (0 : ℚ) * (3 + (0 : ℚ) * 4))
    norm_num
